import Mathlib

/-!
Verification of the coal-pile self-ignition dashboard's client-side logic.

The definitions below are a shallow embedding of the JavaScript source:
  frontend/src/services/dataProcessor.js   (formatters, event construction,
                                            metrics summary, upload validation)
  frontend/src/pages/PredictionsCalendar.jsx  (calendar event list, evaluation
                                               fetch handler)
  frontend/src/pages/DatePileMatrix.jsx    (per-date aggregation)
  frontend/src/pages/Dashboard.jsx         (prediction trigger handler)

JavaScript numbers are modelled as rationals, absent object fields as Option,
and the small class of JavaScript values flowing through the formatters as
explicit inductive types.
-/

namespace Combustion

/-- Calendar date as consumed by the dashboard (year/month/day resolution). -/
structure CalDate where
  year : Int
  month : Nat
  day : Nat
deriving DecidableEq

/-- Values reaching the generic display formatter: null, undefined, NaN,
a finite number, or a string. -/
inductive JSValue where
  | jsNull
  | jsUndef
  | jsNaN
  | jsNum (q : ℚ)
  | jsStr (s : String)
deriving DecidableEq

/-- Values reaching the numeric formatters: null, undefined, NaN, or a finite
number (the dashboard passes only numbers or missing values to these). -/
inductive NumValue where
  | jsNull
  | jsUndef
  | jsNaN
  | jsNum (q : ℚ)
deriving DecidableEq

/-- Values reaching the date formatters: null, undefined, or a parsed date. -/
inductive DateValue where
  | jsNull
  | jsUndef
  | jsDate (d : CalDate)
deriving DecidableEq

/-- Prediction record, one per pile, as delivered by the prediction service. -/
structure Prediction where
  pile_id : Int
  observation_date : Option CalDate
  predicted_fire_date : CalDate
  predicted_days_to_fire_rounded : Int
  risk_level : Option String
  confidence : Option String
  stockyard : Option String
  coal_grade : Option String
deriving DecidableEq

/-- Evaluation match record linking a prediction to the closest real fire. -/
structure MatchRecord where
  pile_id : Int
  predicted_fire_date : CalDate
  real_fire_date : CalDate
  is_match : Bool
  days_difference : Int
  stockyard : Option String
  coal_grade : Option String
deriving DecidableEq

/-- Left-pad a digit string with zeros to the given width. -/
def padZeros (width : Nat) (s : String) : String :=
  String.mk (List.replicate (width - s.length) '0') ++ s

/-- Model of JavaScript toFixed on a finite number: the sign is taken off,
the magnitude is rounded half away from zero at the d-th decimal, and the
fraction is printed with exactly d digits. -/
def toFixedStr (q : ℚ) (d : Nat) : String :=
  let sign := if q < 0 then "-" else ""
  let scaled : Int := (|q| * (10 : ℚ) ^ d + 1 / 2).floor
  let n : Nat := scaled.toNat
  let ip := n / 10 ^ d
  let fp := n % 10 ^ d
  if d = 0 then sign ++ toString ip
  else sign ++ toString ip ++ "." ++ padZeros d (toString fp)

/-- JavaScript template-literal rendering of a possibly missing string field:
a missing value prints as the text undefined. -/
def jsShowOptStr (s : Option String) : String := s.getD "undefined"

/-- JavaScript logical-or chain over possibly missing strings: a missing or
empty string falls through to the fallback. -/
def jsOrString (v : Option String) (fallback : String) : String :=
  match v with
  | some s => if s = "" then fallback else s
  | none => fallback

/-- Rendering of the date-fns pattern dd.MM.yyyy on a parsed date. -/
def formatDatePattern (d : CalDate) : String :=
  padZeros 2 (toString d.day) ++ "." ++ padZeros 2 (toString d.month) ++ "."
    ++ toString d.year

/-- Embeds formatDate from dataProcessor.js: a falsy input returns the empty
string, otherwise the date is rendered as dd.MM.yyyy. -/
def formatDate (date : DateValue) : String :=
  match date with
  | .jsNull => ""
  | .jsUndef => ""
  | .jsDate d => formatDatePattern d

/-- Time-of-day carried alongside a date for the date-time formatter. -/
structure CalDateTime where
  date : CalDate
  hour : Nat
  minute : Nat
deriving DecidableEq

/-- Values reaching the date-time formatter. -/
inductive DateTimeValue where
  | jsNull
  | jsUndef
  | jsDate (dt : CalDateTime)
deriving DecidableEq

/-- Embeds formatDateTime from dataProcessor.js: a falsy input returns the
empty string, otherwise dd.MM.yyyy HH:mm. -/
def formatDateTime (date : DateTimeValue) : String :=
  match date with
  | .jsNull => ""
  | .jsUndef => ""
  | .jsDate dt =>
    formatDatePattern dt.date ++ " " ++ padZeros 2 (toString dt.hour) ++ ":"
      ++ padZeros 2 (toString dt.minute)

/-- Embeds getRiskColor: lookup in the four-colour map with the low colour as
the fallback for any other value. -/
def getRiskColor (riskLevel : Option String) : String :=
  if riskLevel = some "critical" then "#dc2626"
  else if riskLevel = some "high" then "#ea580c"
  else if riskLevel = some "medium" then "#eab308"
  else if riskLevel = some "low" then "#16a34a"
  else "#16a34a"

/-- Embeds formatValue: null, undefined and NaN are replaced by the default
string, every other value passes through unchanged. -/
def formatValue (value : JSValue) (defaultValue : String) : JSValue :=
  match value with
  | .jsNull => .jsStr defaultValue
  | .jsUndef => .jsStr defaultValue
  | .jsNaN => .jsStr defaultValue
  | v => v

/-- Embeds formatNumber: null, undefined and NaN give the default string,
a finite number is rendered with toFixed. -/
def formatNumber (value : NumValue) (decimals : Nat) (defaultValue : String) :
    String :=
  match value with
  | .jsNull => defaultValue
  | .jsUndef => defaultValue
  | .jsNaN => defaultValue
  | .jsNum q => toFixedStr q decimals

/-- Embeds formatPercentage: null, undefined and NaN give the default string,
a finite number is scaled by 100, rendered with toFixed, and suffixed. -/
def formatPercentage (value : NumValue) (decimals : Nat) (defaultValue : String) :
    String :=
  match value with
  | .jsNull => defaultValue
  | .jsUndef => defaultValue
  | .jsNaN => defaultValue
  | .jsNum q => toFixedStr (q * 100) decimals ++ "%"

/-- Model of String.toLower over the character sequence. -/
def strToLower (s : String) : String := String.mk (s.data.map Char.toLower)

/-- Embeds formatConfidence: a falsy input gives the default, otherwise the
lower-cased value is looked up in the three-entry map with the default as
fallback. -/
def formatConfidence (confidence : Option String) (defaultValue : String) :
    String :=
  match confidence with
  | none => defaultValue
  | some c =>
    if strToLower c = "high" then "Высокая"
    else if strToLower c = "medium" then "Средняя"
    else if strToLower c = "low" then "Низкая"
    else defaultValue

/-- Embeds getRiskLabel: lookup in the four-label map with a fixed unknown
label as fallback. -/
def getRiskLabel (riskLevel : Option String) : String :=
  if riskLevel = some "critical" then "Критический"
  else if riskLevel = some "high" then "Высокий"
  else if riskLevel = some "medium" then "Средний"
  else if riskLevel = some "low" then "Низкий"
  else "Неизвестно"

/-- Metadata attached to a calendar event: either the full prediction record
(non-comparison mode) or the comparison-mode fields, with absent object
fields as none. -/
inductive EventProps where
  | fromPrediction (pred : Prediction)
  | comparison (type_ : String) (pileId : Int) (predictedDate : Option CalDate)
      (realDate : Option CalDate) (daysDifference : Option Int)
      (stockyard : Option String) (coalGrade : Option String)
deriving DecidableEq

/-- Calendar event as handed to the calendar widget. -/
structure CalendarEvent where
  id : Option String
  title : String
  start : CalDate
  backgroundColor : String
  borderColor : String
  extendedProps : EventProps
deriving DecidableEq

/-- Embeds processCalendarEvents: one event per prediction, anchored at the
predicted fire date, coloured by risk level, carrying the record. -/
def processCalendarEvents (predictions : List Prediction) : List CalendarEvent :=
  predictions.map fun pred =>
    { id := some ("pile_" ++ toString pred.pile_id)
      title := "Штабель #" ++ toString pred.pile_id ++ " - "
        ++ jsShowOptStr pred.coal_grade ++ "\nСклад "
        ++ jsShowOptStr pred.stockyard ++ " | "
        ++ toString pred.predicted_days_to_fire_rounded ++ " дней"
      start := pred.predicted_fire_date
      backgroundColor := getRiskColor pred.risk_level
      borderColor := getRiskColor pred.risk_level
      extendedProps := .fromPrediction pred }

/-- Metrics object consumed by calculateMetricsSummary. -/
structure EvalMetrics where
  mae : Option ℚ
  accuracy_pm1 : ℚ
  accuracy_pm2 : ℚ
  accuracy_pm3 : ℚ
  total_predictions : Option Nat
  correct_pm2 : Option Nat
deriving DecidableEq

/-- Fixed-shape summary produced by calculateMetricsSummary. -/
structure MetricsSummary where
  mae : String
  accuracyPm2 : String
  totalPredictions : Nat
  correctPm2 : Nat
  meetsTarget : Bool
deriving DecidableEq

/-- Embeds calculateMetricsSummary: a missing input gives no result; otherwise
MAE is rendered to two decimals (or the fallback when absent), the plus-minus-2
accuracy is rendered as a one-decimal percentage, counts are passed through
with zero as default, and the target flag compares the accuracy to 0.7. -/
def calculateMetricsSummary (metrics : Option EvalMetrics) : Option MetricsSummary :=
  match metrics with
  | none => none
  | some m =>
    some { mae := match m.mae with
             | some q => toFixedStr q 2
             | none => "N/A"
           accuracyPm2 := toFixedStr (m.accuracy_pm2 * 100) 1 ++ "%"
           totalPredictions := m.total_predictions.getD 0
           correctPm2 := m.correct_pm2.getD 0
           meetsTarget := decide (m.accuracy_pm2 ≥ 7 / 10) }

/-- Unit names used by formatFileSize. -/
def sizeUnits : List String := ["Bytes", "KB", "MB", "GB"]

/-- Model of JavaScript Math.round: round half towards positive infinity. -/
def jsMathRound (q : ℚ) : Int := (q + 1 / 2).floor

/-- JavaScript default display of a number of the form k divided by 100:
integers print without a decimal point, otherwise trailing zeros are
trimmed. -/
def ratDisplay (q : ℚ) : String :=
  if q.den = 1 then toString q.num
  else if (q * 10).den = 1 then toFixedStr q 1
  else toFixedStr q 2

/-- Embeds formatFileSize: zero bytes prints a fixed string; otherwise the
byte count is scaled to the largest unit, rounded to two decimals, and
suffixed with the unit name (an out-of-range unit index prints as
undefined, as in the source). -/
def formatFileSize (bytes : Nat) : String :=
  if bytes = 0 then "0 Bytes"
  else
    let i := Nat.log 1024 bytes
    let scaled : ℚ := (jsMathRound ((bytes : ℚ) / 1024 ^ i * 100) : ℚ) / 100
    ratDisplay scaled ++ " " ++ sizeUnits.getD i "undefined"

/-- File handed to the upload validator. -/
structure JSFile where
  name : String
  size : Nat
deriving DecidableEq

/-- Structured result of upload validation. -/
structure ValidationResult where
  valid : Bool
  error : Option String
deriving DecidableEq

/-- Model of String.endsWith over the character sequence. -/
def nameEndsWith (s post : String) : Bool :=
  post.data.isSuffixOf s.data

/-- Embeds validateCSVFile: the size limit defaults to 52428800 bytes when the
environment does not configure one; a name not ending in .csv is rejected
regardless of size; an oversized .csv file is rejected; anything else is
accepted. -/
def validateCSVFile (file : JSFile) (envMaxFileSize : Option Nat) :
    ValidationResult :=
  let maxSize := envMaxFileSize.getD 52428800
  if nameEndsWith file.name ".csv" = false then
    { valid := false, error := some "Файл должен быть в формате CSV" }
  else if file.size > maxSize then
    { valid := false
      error := some ("Размер файла не должен превышать " ++ formatFileSize maxSize) }
  else
    { valid := true, error := none }

/-- Embeds the pile-filter predicate of the calendar page: a record is kept
when the selection set is empty or contains its pile id. -/
def pileIncluded (selectedPiles : Finset Int) (pileId : Int) : Bool :=
  decide (selectedPiles = ∅) || decide (pileId ∈ selectedPiles)

/-- Embeds the comparison-mode event construction for one match record: a
matching record yields one event at the real fire date; a non-matching record
yields a prediction event at the predicted date and a real event at the real
date. -/
def matchEvents (m : MatchRecord) : List CalendarEvent :=
  if m.is_match then
    [ { id := none
        title := "✅ Совпадение: Штабель #" ++ toString m.pile_id
        start := m.real_fire_date
        backgroundColor := "#16a34a"
        borderColor := "#16a34a"
        extendedProps := .comparison "match" m.pile_id (some m.predicted_fire_date)
          (some m.real_fire_date) (some m.days_difference) m.stockyard
          m.coal_grade } ]
  else
    [ { id := none
        title := "🔮 Прогноз: Штабель #" ++ toString m.pile_id
        start := m.predicted_fire_date
        backgroundColor := "#3b82f6"
        borderColor := "#3b82f6"
        extendedProps := .comparison "prediction" m.pile_id
          (some m.predicted_fire_date) none none m.stockyard m.coal_grade },
      { id := none
        title := "🔥 Реальное: Штабель #" ++ toString m.pile_id
        start := m.real_fire_date
        backgroundColor := "#dc2626"
        borderColor := "#dc2626"
        extendedProps := .comparison "real" m.pile_id none
          (some m.real_fire_date) none m.stockyard m.coal_grade } ]

/-- Embeds the event-construction stage of the calendar page's events memo
(everything before the year post-filter): predictions and matches are filtered
by the pile selection; with comparison shown and a non-empty match list the
comparison events are emitted, otherwise one event per included prediction. -/
def buildAllEvents (predictions : List Prediction) (selectedPiles : Finset Int)
    (showComparison : Bool) (realFiresData : Option (List MatchRecord)) :
    List CalendarEvent :=
  match showComparison, realFiresData with
  | true, some realFires =>
    if realFires.isEmpty then
      processCalendarEvents
        (predictions.filter fun p => pileIncluded selectedPiles p.pile_id)
    else
      (realFires.filter fun m => pileIncluded selectedPiles m.pile_id).flatMap
        matchEvents
  | _, _ =>
    processCalendarEvents
      (predictions.filter fun p => pileIncluded selectedPiles p.pile_id)

/-- Embeds the full events memo of the calendar page: an empty prediction list
short-circuits to no events; otherwise the constructed events are kept only
when their anchor date's year equals the selected year. -/
def eventsMemo (predictions : List Prediction) (selectedPiles : Finset Int)
    (currentYear : Int) (showComparison : Bool)
    (realFiresData : Option (List MatchRecord)) : List CalendarEvent :=
  if predictions.isEmpty then []
  else
    (buildAllEvents predictions selectedPiles showComparison realFiresData).filter
      fun event => decide (event.start.year = currentYear)

/-- Pile identifier carried by an event's metadata (the pileId field the
source stores in extendedProps in both modes). -/
def eventPileId (e : CalendarEvent) : Int :=
  match e.extendedProps with
  | .fromPrediction pred => pred.pile_id
  | .comparison _ pileId _ _ _ _ _ => pileId

/-- Per-date statistics shown by the date-pile matrix page. -/
structure DateStats where
  total : Nat
  critical : Nat
  high : Nat
  medium : Nat
  low : Nat
deriving DecidableEq

/-- The zeroed statistics used when no date is selected or no data is loaded. -/
def emptyDateStats : DateStats := ⟨0, 0, 0, 0, 0⟩

/-- Embeds the date-statistics effect of DatePileMatrix.jsx: with a selected
date and a non-empty prediction list, the records are filtered by exact
predicted-fire-date equality and the four risk buckets are counted by strict
equality on risk_level; otherwise all counters are zero. -/
def computeDateStats (predictions : List Prediction)
    (selectedDate : Option CalDate) : DateStats :=
  match selectedDate with
  | some selDate =>
    if predictions.isEmpty then emptyDateStats
    else
      let filtered := predictions.filter fun p =>
        decide (p.predicted_fire_date = selDate)
      { total := filtered.length
        critical := (filtered.filter fun p =>
          decide (p.risk_level = some "critical")).length
        high := (filtered.filter fun p =>
          decide (p.risk_level = some "high")).length
        medium := (filtered.filter fun p =>
          decide (p.risk_level = some "medium")).length
        low := (filtered.filter fun p =>
          decide (p.risk_level = some "low")).length }
  | none => emptyDateStats

/-- Response of the evaluation endpoint as consumed by loadRealFiresData. -/
structure EvalResponse where
  matched_predictions : Option (List MatchRecord)
  mae : Option ℚ
  accuracy_pm1 : ℚ
  accuracy_pm2 : ℚ
  accuracy_pm3 : ℚ
  total_predictions : Option Nat
  correct_pm2 : Option Nat
deriving DecidableEq

/-- View state of the calendar page touched by loadRealFiresData. -/
structure CalendarState where
  predictions : List Prediction
  realFiresData : Option (List MatchRecord)
  evaluationMetrics : Option EvalMetrics
  showComparison : Bool
  loading : Bool
deriving DecidableEq

/-- Outcome of the awaited evaluation call: a response, or a thrown error
carrying an optional message. -/
inductive EvalFetchResult where
  | ok (resp : EvalResponse)
  | err (msg : Option String)
deriving DecidableEq

/-- Embeds loadRealFiresData of PredictionsCalendar.jsx as a state transition:
given the prior state, the fires-uploaded flag, and the outcome of the
evaluation call, it returns the next state and the alert message shown, if
any.  Success applies the response and turns comparison on; a missing
matched_predictions field or a thrown error leaves the data fields untouched,
turns comparison off, and surfaces a message. -/
def loadRealFiresData (s : CalendarState) (firesUploaded : Bool)
    (result : EvalFetchResult) : CalendarState × Option String :=
  if firesUploaded = false then
    (s, some "Для сравнения необходимо сначала загрузить файл fires.csv на странице Dashboard.")
  else
    match result with
    | .ok resp =>
      match resp.matched_predictions with
      | none =>
        ({ s with showComparison := false, loading := false },
         some "Ответ от сервера не содержит данных для сравнения.")
      | some matched =>
        ({ s with
            realFiresData := some matched
            evaluationMetrics := some
              { mae := resp.mae
                accuracy_pm1 := resp.accuracy_pm1
                accuracy_pm2 := resp.accuracy_pm2
                accuracy_pm3 := resp.accuracy_pm3
                total_predictions := resp.total_predictions
                correct_pm2 := resp.correct_pm2 }
            showComparison := true
            loading := false },
         none)
    | .err msg =>
      ({ s with showComparison := false, loading := false },
       some (jsOrString msg "Не удалось загрузить данные о реальных возгораниях. Убедитесь, что файл fires.csv загружен и сервер доступен."))

/-- Date range delivered with a prediction response. -/
structure DateRange where
  data_start_date : CalDate
  data_end_date : CalDate
  data_years : List Int
  primary_year : Option Int
deriving DecidableEq

/-- View state of the dashboard page touched by handlePredict. -/
structure DashboardState where
  predicting : Bool
  error : Option String
  success : Option String
  dateRange : Option DateRange
deriving DecidableEq

/-- Outcome of the awaited prediction call. -/
inductive PredictFetchResult where
  | ok (dateRange : Option DateRange)
  | err (msg : Option String)
deriving DecidableEq

/-- Embeds handlePredict of Dashboard.jsx as a state transition: missing
required files set an error without contacting the network; success stores the
received date range and a success message; a thrown error sets an error
message and leaves the date range untouched. -/
def handlePredict (s : DashboardState) (hasRequiredFiles : Bool)
    (result : PredictFetchResult) : DashboardState :=
  if hasRequiredFiles = false then
    { s with error := some "Необходимо загрузить обязательные файлы: поставки, температура и хотя бы один файл погоды" }
  else
    let s1 := { s with predicting := true, error := none }
    match result with
    | .ok dr =>
      let s2 := match dr with
        | some r => { s1 with dateRange := some r }
        | none => s1
      { s2 with success := some "Прогноз успешно выполнен!", predicting := false }
    | .err msg =>
      let failMsg := jsOrString msg "Ошибка при выполнении прогноза"
      { s1 with error := some failMsg, predicting := false }

/-! Shared helper lemmas. -/

/-- The pile filter keeps a record exactly when the selection is empty or
contains its pile id. -/
lemma pileIncluded_eq_true_iff (sel : Finset Int) (pid : Int) :
    pileIncluded sel pid = true ↔ (sel = ∅ ∨ pid ∈ sel) := by
  simp [pileIncluded]

/-- The five colours any constructed event can carry. -/
def eventColors : List String :=
  ["#dc2626", "#ea580c", "#eab308", "#16a34a", "#3b82f6"]

/-- getRiskColor only ever returns one of the four risk colours. -/
lemma getRiskColor_mem (r : Option String) :
    getRiskColor r = "#dc2626" ∨ getRiskColor r = "#ea580c"
      ∨ getRiskColor r = "#eab308" ∨ getRiskColor r = "#16a34a" := by
  unfold getRiskColor
  split_ifs <;> simp

/-- Every event of the construction stage carries an included pile id and one
of the five defined colours. -/
lemma mem_buildAllEvents (preds : List Prediction) (sel : Finset Int)
    (sc : Bool) (rfd : Option (List MatchRecord)) :
    ∀ e ∈ buildAllEvents preds sel sc rfd,
      pileIncluded sel (eventPileId e) = true
      ∧ e.backgroundColor ∈ eventColors ∧ e.borderColor ∈ eventColors := by
  have hpred : ∀ e ∈ processCalendarEvents
      (preds.filter fun p => pileIncluded sel p.pile_id),
      pileIncluded sel (eventPileId e) = true
      ∧ e.backgroundColor ∈ eventColors ∧ e.borderColor ∈ eventColors := by
    intro e he
    rw [processCalendarEvents, List.mem_map] at he
    obtain ⟨p, hp, rfl⟩ := he
    have hinc := (List.mem_filter.mp hp).2
    refine ⟨hinc, ?_, ?_⟩ <;>
      · rcases getRiskColor_mem p.risk_level with h | h | h | h <;>
          simp [eventColors, h]
  have hmatch : ∀ (m : MatchRecord), ∀ e ∈ matchEvents m,
      eventPileId e = m.pile_id
      ∧ e.backgroundColor ∈ eventColors ∧ e.borderColor ∈ eventColors := by
    intro m e he
    rcases hm : m.is_match with _ | _ <;> simp [matchEvents, hm] at he
    · rcases he with rfl | rfl <;> simp [eventPileId, eventColors]
    · subst he
      simp [eventPileId, eventColors]
  intro e he
  rcases sc with _ | _
  · exact hpred e he
  · rcases rfd with _ | rf
    · exact hpred e he
    · simp only [buildAllEvents] at he
      by_cases hrf : rf.isEmpty = true
      · rw [if_pos hrf] at he
        exact hpred e he
      · rw [if_neg hrf, List.mem_flatMap] at he
        obtain ⟨m, hm, hme⟩ := he
        have hinc := (List.mem_filter.mp hm).2
        obtain ⟨hpid, hbg, hbd⟩ := hmatch m e hme
        exact ⟨hpid ▸ hinc, hbg, hbd⟩

/-- The final event list is contained in the construction stage's list. -/
lemma mem_of_mem_eventsMemo (preds : List Prediction) (sel : Finset Int)
    (year : Int) (sc : Bool) (rfd : Option (List MatchRecord)) :
    ∀ e ∈ eventsMemo preds sel year sc rfd,
      e ∈ buildAllEvents preds sel sc rfd ∧ e.start.year = year := by
  intro e he
  unfold eventsMemo at he
  split at he
  · simp at he
  · have h := List.mem_filter.mp he
    exact ⟨h.1, of_decide_eq_true h.2⟩

/-- A record's risk level is one of the four values the matrix page counts. -/
def riskKnown (p : Prediction) : Bool :=
  decide (p.risk_level = some "critical") || decide (p.risk_level = some "high")
    || decide (p.risk_level = some "medium") || decide (p.risk_level = some "low")

/-- Records matching the selected date split into the four risk buckets plus
the unrecognised-risk leftover. -/
lemma countP_risk_partition (l : List Prediction) (d : CalDate) :
    l.countP (fun p => decide (p.predicted_fire_date = d)
        && decide (p.risk_level = some "critical"))
      + l.countP (fun p => decide (p.predicted_fire_date = d)
        && decide (p.risk_level = some "high"))
      + l.countP (fun p => decide (p.predicted_fire_date = d)
        && decide (p.risk_level = some "medium"))
      + l.countP (fun p => decide (p.predicted_fire_date = d)
        && decide (p.risk_level = some "low"))
      + l.countP (fun p => decide (p.predicted_fire_date = d) && ! riskKnown p)
      = l.countP (fun p => decide (p.predicted_fire_date = d)) := by
  induction l with
  | nil => simp
  | cons p t ih =>
    simp only [List.countP_cons]
    by_cases hd : p.predicted_fire_date = d
    · by_cases h1 : p.risk_level = some "critical" <;>
        by_cases h2 : p.risk_level = some "high" <;>
        by_cases h3 : p.risk_level = some "medium" <;>
        by_cases h4 : p.risk_level = some "low" <;>
        simp_all [riskKnown] <;> omega
    · simp_all

/-- The count of events carrying a given prediction as metadata equals the
number of occurrences of that prediction in the mapped list. -/
lemma countP_processCalendarEvents (l : List Prediction) (p : Prediction) :
    (processCalendarEvents l).countP
        (fun e => decide (e.extendedProps = EventProps.fromPrediction p))
      = l.count p := by
  rw [processCalendarEvents, List.countP_map, List.count_eq_countP]
  apply List.countP_congr
  intro q hq
  simp [Function.comp]

/-- Filtering by a predicate satisfied at an element preserves its count. -/
lemma count_filter_of_true {α : Type} [DecidableEq α] (g : α → Bool) (a : α)
    (h : g a = true) (l : List α) : (l.filter g).count a = l.count a := by
  rw [List.count_eq_countP, List.countP_filter, List.count_eq_countP]
  apply List.countP_congr
  intro x hx
  by_cases hxa : x = a <;> simp [hxa, h]

/-! Claim theorems. -/

/-- Claim C3 counterexample: a record whose risk_level is absent is counted in
the per-date total but in none of the four risk buckets, so the bucket counts
do not sum to the total; the claim that a record lacking a risk_level is
counted under low fails on the code. -/
theorem c3_missing_risk_counterexample :
    (computeDateStats [⟨1, none, ⟨2024, 5, 1⟩, 3, none, none, none, none⟩]
        (some ⟨2024, 5, 1⟩)).total = 1
    ∧ (computeDateStats [⟨1, none, ⟨2024, 5, 1⟩, 3, none, none, none, none⟩]
        (some ⟨2024, 5, 1⟩)).low = 0
    ∧ ¬ ((computeDateStats [⟨1, none, ⟨2024, 5, 1⟩, 3, none, none, none, none⟩]
            (some ⟨2024, 5, 1⟩)).critical
          + (computeDateStats [⟨1, none, ⟨2024, 5, 1⟩, 3, none, none, none, none⟩]
              (some ⟨2024, 5, 1⟩)).high
          + (computeDateStats [⟨1, none, ⟨2024, 5, 1⟩, 3, none, none, none, none⟩]
              (some ⟨2024, 5, 1⟩)).medium
          + (computeDateStats [⟨1, none, ⟨2024, 5, 1⟩, 3, none, none, none, none⟩]
              (some ⟨2024, 5, 1⟩)).low
        = (computeDateStats [⟨1, none, ⟨2024, 5, 1⟩, 3, none, none, none, none⟩]
            (some ⟨2024, 5, 1⟩)).total) := by
  decide

/-- Claim C3 amended: for a non-empty prediction list and a selected date the
total equals the number of records whose predicted_fire_date equals the date,
each risk bucket counts records with exactly that risk_level value, and the
four buckets sum to the total only together with the leftover of matching
records whose risk_level is not one of the four recognised values (a record
lacking a risk_level is counted in the total but in no bucket). -/
theorem c3_date_stats_amended (preds : List Prediction) (d : CalDate)
    (hne : preds ≠ []) :
    (computeDateStats preds (some d)).total
      = preds.countP (fun p => decide (p.predicted_fire_date = d))
    ∧ (computeDateStats preds (some d)).critical
      = preds.countP (fun p => decide (p.predicted_fire_date = d)
          && decide (p.risk_level = some "critical"))
    ∧ (computeDateStats preds (some d)).high
      = preds.countP (fun p => decide (p.predicted_fire_date = d)
          && decide (p.risk_level = some "high"))
    ∧ (computeDateStats preds (some d)).medium
      = preds.countP (fun p => decide (p.predicted_fire_date = d)
          && decide (p.risk_level = some "medium"))
    ∧ (computeDateStats preds (some d)).low
      = preds.countP (fun p => decide (p.predicted_fire_date = d)
          && decide (p.risk_level = some "low"))
    ∧ (computeDateStats preds (some d)).critical
        + (computeDateStats preds (some d)).high
        + (computeDateStats preds (some d)).medium
        + (computeDateStats preds (some d)).low
        + preds.countP (fun p => decide (p.predicted_fire_date = d)
            && ! riskKnown p)
      = (computeDateStats preds (some d)).total := by
  have hne2 : preds.isEmpty = false := by
    simp [List.isEmpty_iff, hne]
  have hbucket : ∀ g : Prediction → Bool,
      ((preds.filter fun p => decide (p.predicted_fire_date = d)).filter g).length
        = preds.countP (fun p => decide (p.predicted_fire_date = d) && g p) := by
    intro g
    rw [← List.countP_eq_length_filter, List.countP_filter]
    apply List.countP_congr
    intro x hx
    simp [Bool.and_comm]
  have htot : (computeDateStats preds (some d)).total
      = preds.countP (fun p => decide (p.predicted_fire_date = d)) := by
    simp only [computeDateStats, hne2, Bool.false_eq_true, if_false]
    exact (List.countP_eq_length_filter _ _).symm
  have hc : (computeDateStats preds (some d)).critical
      = preds.countP (fun p => decide (p.predicted_fire_date = d)
          && decide (p.risk_level = some "critical")) := by
    simp only [computeDateStats, hne2, Bool.false_eq_true, if_false]
    exact hbucket _
  have hh : (computeDateStats preds (some d)).high
      = preds.countP (fun p => decide (p.predicted_fire_date = d)
          && decide (p.risk_level = some "high")) := by
    simp only [computeDateStats, hne2, Bool.false_eq_true, if_false]
    exact hbucket _
  have hm : (computeDateStats preds (some d)).medium
      = preds.countP (fun p => decide (p.predicted_fire_date = d)
          && decide (p.risk_level = some "medium")) := by
    simp only [computeDateStats, hne2, Bool.false_eq_true, if_false]
    exact hbucket _
  have hl : (computeDateStats preds (some d)).low
      = preds.countP (fun p => decide (p.predicted_fire_date = d)
          && decide (p.risk_level = some "low")) := by
    simp only [computeDateStats, hne2, Bool.false_eq_true, if_false]
    exact hbucket _
  refine ⟨htot, hc, hh, hm, hl, ?_⟩
  rw [htot, hc, hh, hm, hl]
  exact countP_risk_partition preds d

/-- Claim C3 amended witness: a concrete list with one record per bucket, one
date mismatch, and one record lacking a risk level. -/
theorem c3_date_stats_amended_witness :
    (computeDateStats
        [⟨1, none, ⟨2024, 5, 1⟩, 1, some "critical", none, none, none⟩,
         ⟨2, none, ⟨2024, 5, 1⟩, 5, some "high", none, none, none⟩,
         ⟨3, none, ⟨2024, 5, 1⟩, 9, some "low", none, none, none⟩,
         ⟨4, none, ⟨2024, 5, 2⟩, 9, some "low", none, none, none⟩,
         ⟨5, none, ⟨2024, 5, 1⟩, 9, none, none, none, none⟩]
        (some ⟨2024, 5, 1⟩)).total = 4
    ∧ (computeDateStats
        [⟨1, none, ⟨2024, 5, 1⟩, 1, some "critical", none, none, none⟩,
         ⟨2, none, ⟨2024, 5, 1⟩, 5, some "high", none, none, none⟩,
         ⟨3, none, ⟨2024, 5, 1⟩, 9, some "low", none, none, none⟩,
         ⟨4, none, ⟨2024, 5, 2⟩, 9, some "low", none, none, none⟩,
         ⟨5, none, ⟨2024, 5, 1⟩, 9, none, none, none, none⟩]
        (some ⟨2024, 5, 1⟩)).critical
      + (computeDateStats
        [⟨1, none, ⟨2024, 5, 1⟩, 1, some "critical", none, none, none⟩,
         ⟨2, none, ⟨2024, 5, 1⟩, 5, some "high", none, none, none⟩,
         ⟨3, none, ⟨2024, 5, 1⟩, 9, some "low", none, none, none⟩,
         ⟨4, none, ⟨2024, 5, 2⟩, 9, some "low", none, none, none⟩,
         ⟨5, none, ⟨2024, 5, 1⟩, 9, none, none, none, none⟩]
        (some ⟨2024, 5, 1⟩)).high
      + (computeDateStats
        [⟨1, none, ⟨2024, 5, 1⟩, 1, some "critical", none, none, none⟩,
         ⟨2, none, ⟨2024, 5, 1⟩, 5, some "high", none, none, none⟩,
         ⟨3, none, ⟨2024, 5, 1⟩, 9, some "low", none, none, none⟩,
         ⟨4, none, ⟨2024, 5, 2⟩, 9, some "low", none, none, none⟩,
         ⟨5, none, ⟨2024, 5, 1⟩, 9, none, none, none, none⟩]
        (some ⟨2024, 5, 1⟩)).medium
      + (computeDateStats
        [⟨1, none, ⟨2024, 5, 1⟩, 1, some "critical", none, none, none⟩,
         ⟨2, none, ⟨2024, 5, 1⟩, 5, some "high", none, none, none⟩,
         ⟨3, none, ⟨2024, 5, 1⟩, 9, some "low", none, none, none⟩,
         ⟨4, none, ⟨2024, 5, 2⟩, 9, some "low", none, none, none⟩,
         ⟨5, none, ⟨2024, 5, 1⟩, 9, none, none, none, none⟩]
        (some ⟨2024, 5, 1⟩)).low + 1
      = (computeDateStats
        [⟨1, none, ⟨2024, 5, 1⟩, 1, some "critical", none, none, none⟩,
         ⟨2, none, ⟨2024, 5, 1⟩, 5, some "high", none, none, none⟩,
         ⟨3, none, ⟨2024, 5, 1⟩, 9, some "low", none, none, none⟩,
         ⟨4, none, ⟨2024, 5, 2⟩, 9, some "low", none, none, none⟩,
         ⟨5, none, ⟨2024, 5, 1⟩, 9, none, none, none, none⟩]
        (some ⟨2024, 5, 1⟩)).total := by
  obtain ⟨htot, -, -, -, -, hsum⟩ := c3_date_stats_amended
    [⟨1, none, ⟨2024, 5, 1⟩, 1, some "critical", none, none, none⟩,
     ⟨2, none, ⟨2024, 5, 1⟩, 5, some "high", none, none, none⟩,
     ⟨3, none, ⟨2024, 5, 1⟩, 9, some "low", none, none, none⟩,
     ⟨4, none, ⟨2024, 5, 2⟩, 9, some "low", none, none, none⟩,
     ⟨5, none, ⟨2024, 5, 1⟩, 9, none, none, none, none⟩]
    ⟨2024, 5, 1⟩ (by decide)
  refine ⟨by rw [htot]; decide, ?_⟩
  rw [← hsum]
  have : ([⟨1, none, ⟨2024, 5, 1⟩, 1, some "critical", none, none, none⟩,
      ⟨2, none, ⟨2024, 5, 1⟩, 5, some "high", none, none, none⟩,
      ⟨3, none, ⟨2024, 5, 1⟩, 9, some "low", none, none, none⟩,
      ⟨4, none, ⟨2024, 5, 2⟩, 9, some "low", none, none, none⟩,
      ⟨5, none, ⟨2024, 5, 1⟩, 9, none, none, none, none⟩] :
        List Prediction).countP
      (fun p => decide (p.predicted_fire_date = ⟨2024, 5, 1⟩) && ! riskKnown p)
      = 1 := by decide
  rw [this]

/-- Claim C4: compute metrics summary returns no result when its input is
absent; otherwise it returns a summary whose meetsTarget field holds exactly
when accuracy_pm2 is at least 0.70 (inclusive boundary: 0.7 gives true, 0.69
gives false), whose MAE is the two-decimal rendering of the input MAE, whose
accuracy is the one-decimal percentage rendering, and which passes through the
prediction counts; it is a pure function. -/
theorem c4_calculate_metrics_summary :
    calculateMetricsSummary none = none
    ∧ ∀ m : EvalMetrics, ∃ s : MetricsSummary,
        calculateMetricsSummary (some m) = some s
        ∧ (s.meetsTarget = true ↔ m.accuracy_pm2 ≥ 7 / 10)
        ∧ (m.accuracy_pm2 = 7 / 10 → s.meetsTarget = true)
        ∧ (m.accuracy_pm2 = 69 / 100 → s.meetsTarget = false)
        ∧ (∀ q : ℚ, m.mae = some q → s.mae = toFixedStr q 2)
        ∧ s.accuracyPm2 = toFixedStr (m.accuracy_pm2 * 100) 1 ++ "%"
        ∧ (∀ n : Nat, m.total_predictions = some n → s.totalPredictions = n)
        ∧ (∀ k : Nat, m.correct_pm2 = some k → s.correctPm2 = k) := by
  refine ⟨rfl, fun m => ⟨_, rfl, ?_, ?_, ?_, ?_, rfl, ?_, ?_⟩⟩
  · simp [calculateMetricsSummary]
  · intro h
    simp [calculateMetricsSummary, h]
  · intro h
    simp only [calculateMetricsSummary, h, decide_eq_false_iff_not]
    norm_num
  · intro q hq
    simp [calculateMetricsSummary, hq]
  · intro n hn
    simp [calculateMetricsSummary, hn]
  · intro k hk
    simp [calculateMetricsSummary, hk]

/-- Claim C4 witness: at a concrete metrics object with accuracy exactly 0.7
the summary exists, meets the target, and passes the counts through. -/
theorem c4_calculate_metrics_summary_witness :
    calculateMetricsSummary none = none
    ∧ ∃ s : MetricsSummary,
        calculateMetricsSummary
            (some { mae := some (37 / 20), accuracy_pm1 := 52 / 100,
                    accuracy_pm2 := 7 / 10, accuracy_pm3 := 85 / 100,
                    total_predictions := some 100, correct_pm2 := some 73 })
          = some s
        ∧ s.meetsTarget = true
        ∧ s.totalPredictions = 100
        ∧ s.correctPm2 = 73
        ∧ s.mae = toFixedStr (37 / 20) 2 := by
  obtain ⟨h0, h⟩ := c4_calculate_metrics_summary
  obtain ⟨s, hs, _, h7, _, hmae, _, htot, hcor⟩ :=
    h { mae := some (37 / 20), accuracy_pm1 := 52 / 100, accuracy_pm2 := 7 / 10,
        accuracy_pm3 := 85 / 100, total_predictions := some 100,
        correct_pm2 := some 73 }
  exact ⟨h0, s, hs, h7 rfl, htot 100 rfl, hcor 73 rfl, hmae _ rfl⟩

/-- Claim C5 counterexample: the date formatters render a null or undefined
input as the empty string, a blank rendering rather than the fixed
placeholder, refuting the claim that every display formatter returns a fixed
placeholder and never renders blank. -/
theorem c5_format_date_blank_counterexample :
    formatDate DateValue.jsNull = "" ∧ formatDate DateValue.jsUndef = ""
    ∧ formatDate DateValue.jsNull ≠ "—"
    ∧ formatDateTime DateTimeValue.jsNull = "" := by
  refine ⟨rfl, rfl, ?_, rfl⟩
  decide

/-- Claim C5 amended: the number, percentage, value, confidence and risk-label
formatters treat null, undefined and NaN (and unrecognised label strings) as a
single unknown case and return their fixed placeholder; the date formatters
instead return the empty string on null and undefined inputs. -/
theorem c5_formatters_amended :
    (∀ d : Nat, formatNumber NumValue.jsNaN d "—" = "—"
      ∧ formatNumber NumValue.jsNull d "—" = "—"
      ∧ formatNumber NumValue.jsUndef d "—" = "—")
    ∧ (∀ d : Nat, formatPercentage NumValue.jsNaN d "—" = "—"
      ∧ formatPercentage NumValue.jsNull d "—" = "—"
      ∧ formatPercentage NumValue.jsUndef d "—" = "—")
    ∧ formatValue JSValue.jsNaN "—" = JSValue.jsStr "—"
    ∧ formatValue JSValue.jsNull "—" = JSValue.jsStr "—"
    ∧ formatValue JSValue.jsUndef "—" = JSValue.jsStr "—"
    ∧ formatConfidence none "—" = "—"
    ∧ (∀ c : String, strToLower c ≠ "high" → strToLower c ≠ "medium" →
        strToLower c ≠ "low" → formatConfidence (some c) "—" = "—")
    ∧ getRiskLabel none = "Неизвестно"
    ∧ (∀ r : Option String, r ≠ some "critical" → r ≠ some "high" →
        r ≠ some "medium" → r ≠ some "low" → getRiskLabel r = "Неизвестно")
    ∧ formatDate DateValue.jsNull = "" ∧ formatDate DateValue.jsUndef = ""
    ∧ formatDateTime DateTimeValue.jsNull = ""
    ∧ formatDateTime DateTimeValue.jsUndef = "" := by
  refine ⟨fun d => ⟨rfl, rfl, rfl⟩, fun d => ⟨rfl, rfl, rfl⟩, rfl, rfl, rfl,
    rfl, ?_, rfl, ?_, rfl, rfl, rfl, rfl⟩
  · intro c h1 h2 h3
    simp [formatConfidence, h1, h2, h3]
  · intro r h1 h2 h3 h4
    simp [getRiskLabel, h1, h2, h3, h4]

/-- Claim C5 amended witness: concrete unknown inputs at the formatters the
claim names explicitly. -/
theorem c5_formatters_amended_witness :
    formatNumber NumValue.jsNaN 1 "—" = "—"
    ∧ formatNumber NumValue.jsNull 1 "—" = "—"
    ∧ formatConfidence (some "banana") "—" = "—"
    ∧ getRiskLabel (some "banana") = "Неизвестно" := by
  obtain ⟨hnum, -, -, -, -, -, hconf, -, hrisk, -⟩ := c5_formatters_amended
  exact ⟨(hnum 1).1, (hnum 1).2.1,
    hconf "banana" (by decide) (by decide) (by decide),
    hrisk (some "banana") (by decide) (by decide) (by decide) (by decide)⟩

/-- Claim C8: validate upload always returns a structured result: a name not
ending in .csv is rejected regardless of size; a .csv-named file strictly
above the configured maximum (default 52428800 bytes) is rejected with a
reason; a .csv-named file at or under the limit is accepted. -/
theorem c8_validate_csv_file (file : JSFile) (envMaxFileSize : Option Nat) :
    (nameEndsWith file.name ".csv" = false →
      validateCSVFile file envMaxFileSize
        = { valid := false, error := some "Файл должен быть в формате CSV" })
    ∧ (nameEndsWith file.name ".csv" = true →
        envMaxFileSize.getD 52428800 < file.size →
        (validateCSVFile file envMaxFileSize).valid = false
        ∧ (validateCSVFile file envMaxFileSize).error.isSome = true)
    ∧ (nameEndsWith file.name ".csv" = true →
        file.size ≤ envMaxFileSize.getD 52428800 →
        validateCSVFile file envMaxFileSize = { valid := true, error := none }) := by
  refine ⟨?_, ?_, ?_⟩
  · intro h1
    simp [validateCSVFile, h1]
  · intro h1 h2
    simp [validateCSVFile, h1, h2]
  · intro h1 h2
    simp [validateCSVFile, h1, Nat.not_lt.mpr h2]

/-- Claim C8 witness: a .txt file is rejected, an oversized .csv file is
rejected with a reason, a .csv file at the default limit is accepted. -/
theorem c8_validate_csv_file_witness :
    validateCSVFile { name := "data.txt", size := 10 } none
      = { valid := false, error := some "Файл должен быть в формате CSV" }
    ∧ (validateCSVFile { name := "data.csv", size := 52428801 } none).valid = false
    ∧ (validateCSVFile { name := "data.csv", size := 52428801 } none).error.isSome
        = true
    ∧ validateCSVFile { name := "data.csv", size := 52428800 } none
      = { valid := true, error := none } := by
  obtain ⟨ha, hb, -⟩ :=
    c8_validate_csv_file { name := "data.csv", size := 52428801 } none
  obtain ⟨hb1, hb2⟩ := hb (by decide) (by decide)
  exact ⟨(c8_validate_csv_file { name := "data.txt", size := 10 } none).1
      (by decide),
    hb1, hb2,
    (c8_validate_csv_file { name := "data.csv", size := 52428800 } none).2.2
      (by decide) (by decide)⟩

/-- Claim C10: getRiskColor is total over arbitrary input: any risk level
outside the four known values maps to the low-risk colour, its result is
always one of the four defined colours, and every entry of the calendar event
list carries a defined colour in both fields. -/
theorem c10_get_risk_color_total (r : Option String) (preds : List Prediction)
    (sel : Finset Int) (year : Int) (showComp : Bool)
    (rfd : Option (List MatchRecord)) :
    (r ≠ some "critical" → r ≠ some "high" → r ≠ some "medium" →
      r ≠ some "low" → getRiskColor r = "#16a34a")
    ∧ (getRiskColor r = "#dc2626" ∨ getRiskColor r = "#ea580c"
        ∨ getRiskColor r = "#eab308" ∨ getRiskColor r = "#16a34a")
    ∧ (∀ e ∈ eventsMemo preds sel year showComp rfd,
        e.backgroundColor ∈ eventColors ∧ e.borderColor ∈ eventColors) := by
  refine ⟨?_, getRiskColor_mem r, ?_⟩
  · intro h1 h2 h3 h4
    simp [getRiskColor, h1, h2, h3, h4]
  · intro e he
    have h := (mem_of_mem_eventsMemo preds sel year showComp rfd e he).1
    exact (mem_buildAllEvents preds sel showComp rfd e h).2

/-- Claim C10 witness: an unrecognised risk level at a concrete input gets the
low-risk colour, and a concrete calendar entry carries defined colours. -/
theorem c10_get_risk_color_total_witness :
    getRiskColor (some "banana") = "#16a34a"
    ∧ getRiskColor none = "#16a34a" := by
  refine ⟨?_, ?_⟩
  · exact (c10_get_risk_color_total (some "banana") [] ∅ 0 false none).1
      (by decide) (by decide) (by decide) (by decide)
  · exact (c10_get_risk_color_total none [] ∅ 0 false none).1
      (by decide) (by decide) (by decide) (by decide)

/-- Claim C1: in non-comparison mode the event-construction stage emits, for
every prediction record whose pile id is selected (or when the selection is
empty), exactly one calendar entry per occurrence of the record, anchored at
its predicted_fire_date, with background and border colour determined by its
risk_level through the four-colour map, carrying the full record as
metadata. -/
theorem c1_noncomparison_event_per_record (preds : List Prediction)
    (sel : Finset Int) (rfd : Option (List MatchRecord)) (p : Prediction)
    (hinc : sel = ∅ ∨ p.pile_id ∈ sel) :
    (buildAllEvents preds sel false rfd).countP
        (fun e => decide (e.extendedProps = EventProps.fromPrediction p))
      = preds.count p
    ∧ (∀ e ∈ buildAllEvents preds sel false rfd,
        e.extendedProps = EventProps.fromPrediction p →
          e.start = p.predicted_fire_date
          ∧ e.backgroundColor = getRiskColor p.risk_level
          ∧ e.borderColor = getRiskColor p.risk_level)
    ∧ getRiskColor (some "critical") = "#dc2626"
    ∧ getRiskColor (some "high") = "#ea580c"
    ∧ getRiskColor (some "medium") = "#eab308"
    ∧ getRiskColor (some "low") = "#16a34a" := by
  have hpi : pileIncluded sel p.pile_id = true :=
    (pileIncluded_eq_true_iff sel p.pile_id).mpr hinc
  refine ⟨?_, ?_, by decide, by decide, by decide, by decide⟩
  · show (processCalendarEvents
        (preds.filter fun q => pileIncluded sel q.pile_id)).countP _ = _
    rw [countP_processCalendarEvents]
    exact count_filter_of_true (fun q => pileIncluded sel q.pile_id) p hpi preds
  · intro e he hprops
    have he2 : e ∈ processCalendarEvents
        (preds.filter fun q => pileIncluded sel q.pile_id) := he
    rw [processCalendarEvents, List.mem_map] at he2
    obtain ⟨q, hq, rfl⟩ := he2
    have hqp : q = p := by
      simpa [EventProps.fromPrediction.injEq] using hprops
    subst hqp
    exact ⟨rfl, rfl, rfl⟩

/-- Claim C1 witness: a concrete record with an empty selection yields exactly
one event, and one with its pile selected yields one event. -/
theorem c1_noncomparison_event_per_record_witness :
    (buildAllEvents
        [⟨1, none, ⟨2024, 5, 1⟩, 3, some "high", none, some "A", some "B"⟩]
        ∅ false none).countP
        (fun e => decide (e.extendedProps = EventProps.fromPrediction
          ⟨1, none, ⟨2024, 5, 1⟩, 3, some "high", none, some "A", some "B"⟩))
      = 1
    ∧ (buildAllEvents
        [⟨1, none, ⟨2024, 5, 1⟩, 3, some "high", none, some "A", some "B"⟩]
        {1} false none).countP
        (fun e => decide (e.extendedProps = EventProps.fromPrediction
          ⟨1, none, ⟨2024, 5, 1⟩, 3, some "high", none, some "A", some "B"⟩))
      = 1
    ∧ getRiskColor (some "high") = "#ea580c" := by
  obtain ⟨h1, -, -⟩ := c1_noncomparison_event_per_record
    [⟨1, none, ⟨2024, 5, 1⟩, 3, some "high", none, some "A", some "B"⟩] ∅ none
    ⟨1, none, ⟨2024, 5, 1⟩, 3, some "high", none, some "A", some "B"⟩
    (Or.inl rfl)
  obtain ⟨h2, -, -, hcol, -⟩ := c1_noncomparison_event_per_record
    [⟨1, none, ⟨2024, 5, 1⟩, 3, some "high", none, some "A", some "B"⟩] {1} none
    ⟨1, none, ⟨2024, 5, 1⟩, 3, some "high", none, some "A", some "B"⟩
    (Or.inr (by decide))
  refine ⟨?_, ?_, hcol⟩
  · rw [h1]; decide
  · rw [h2]; decide

/-- Claim C2: in comparison mode with a non-empty match list, the construction
stage is exactly the per-match emission over the pile-filtered matches, and
each match record with is_match true yields exactly one entry anchored at the
real fire date labelled and coloured as a match, while is_match false yields
exactly two entries, one anchored at the predicted date labelled as a
prediction and one anchored at the real date labelled as real, each carrying
pile id, stockyard and coal grade. -/
theorem c2_comparison_match_events (preds : List Prediction) (sel : Finset Int)
    (ms : List MatchRecord) (m : MatchRecord) (hne : ms ≠ []) :
    buildAllEvents preds sel true (some ms)
      = (ms.filter fun mr => pileIncluded sel mr.pile_id).flatMap
          matchEvents
    ∧ (m.is_match = true → ∃ e : CalendarEvent, matchEvents m = [e]
        ∧ e.start = m.real_fire_date
        ∧ e.title = "✅ Совпадение: Штабель #" ++ toString m.pile_id
        ∧ e.backgroundColor = "#16a34a" ∧ e.borderColor = "#16a34a"
        ∧ e.extendedProps = EventProps.comparison "match" m.pile_id
            (some m.predicted_fire_date) (some m.real_fire_date)
            (some m.days_difference) m.stockyard m.coal_grade)
    ∧ (m.is_match = false → ∃ e1 e2 : CalendarEvent, matchEvents m = [e1, e2]
        ∧ e1.start = m.predicted_fire_date
        ∧ e1.title = "🔮 Прогноз: Штабель #" ++ toString m.pile_id
        ∧ e1.backgroundColor = "#3b82f6"
        ∧ e1.extendedProps = EventProps.comparison "prediction" m.pile_id
            (some m.predicted_fire_date) none none m.stockyard m.coal_grade
        ∧ e2.start = m.real_fire_date
        ∧ e2.title = "🔥 Реальное: Штабель #" ++ toString m.pile_id
        ∧ e2.backgroundColor = "#dc2626"
        ∧ e2.extendedProps = EventProps.comparison "real" m.pile_id
            none (some m.real_fire_date) none m.stockyard m.coal_grade) := by
  refine ⟨?_, ?_, ?_⟩
  · simp only [buildAllEvents]
    rw [if_neg]
    simp [List.isEmpty_iff, hne]
  · intro hm
    refine ⟨⟨none, "✅ Совпадение: Штабель #" ++ toString m.pile_id,
      m.real_fire_date, "#16a34a", "#16a34a",
      EventProps.comparison "match" m.pile_id (some m.predicted_fire_date)
        (some m.real_fire_date) (some m.days_difference) m.stockyard
        m.coal_grade⟩, ?_, rfl, rfl, rfl, rfl, rfl⟩
    simp [matchEvents, hm]
  · intro hm
    refine ⟨⟨none, "🔮 Прогноз: Штабель #" ++ toString m.pile_id,
      m.predicted_fire_date, "#3b82f6", "#3b82f6",
      EventProps.comparison "prediction" m.pile_id (some m.predicted_fire_date)
        none none m.stockyard m.coal_grade⟩,
      ⟨none, "🔥 Реальное: Штабель #" ++ toString m.pile_id,
      m.real_fire_date, "#dc2626", "#dc2626",
      EventProps.comparison "real" m.pile_id none (some m.real_fire_date)
        none m.stockyard m.coal_grade⟩,
      ?_, rfl, rfl, rfl, rfl, rfl, rfl, rfl, rfl⟩
    simp [matchEvents, hm]

/-- Claim C2 witness: a concrete matching record yields one event at the real
date; a concrete non-matching record yields a prediction event and a real
event at their own dates. -/
theorem c2_comparison_match_events_witness :
    buildAllEvents [] ∅ true
        (some [⟨1, ⟨2024, 5, 1⟩, ⟨2024, 5, 2⟩, true, 1, none, none⟩])
      = ([⟨1, ⟨2024, 5, 1⟩, ⟨2024, 5, 2⟩, true, 1, none, none⟩].filter
          fun mr => pileIncluded ∅ mr.pile_id).flatMap matchEvents
    ∧ (∃ e : CalendarEvent,
        matchEvents ⟨1, ⟨2024, 5, 1⟩, ⟨2024, 5, 2⟩, true, 1, none, none⟩ = [e]
        ∧ e.start = ⟨2024, 5, 2⟩)
    ∧ ∃ e1 e2 : CalendarEvent,
        matchEvents ⟨2, ⟨2024, 6, 1⟩, ⟨2024, 6, 5⟩, false, 4, none, none⟩
          = [e1, e2]
        ∧ e1.start = ⟨2024, 6, 1⟩ ∧ e2.start = ⟨2024, 6, 5⟩ := by
  obtain ⟨hA, hB, -⟩ := c2_comparison_match_events [] ∅
    [⟨1, ⟨2024, 5, 1⟩, ⟨2024, 5, 2⟩, true, 1, none, none⟩]
    ⟨1, ⟨2024, 5, 1⟩, ⟨2024, 5, 2⟩, true, 1, none, none⟩ (by decide)
  obtain ⟨e, he, hs, -⟩ := hB rfl
  obtain ⟨-, -, hC⟩ := c2_comparison_match_events [] ∅
    [⟨2, ⟨2024, 6, 1⟩, ⟨2024, 6, 5⟩, false, 4, none, none⟩]
    ⟨2, ⟨2024, 6, 1⟩, ⟨2024, 6, 5⟩, false, 4, none, none⟩ (by decide)
  obtain ⟨e1, e2, h12, hs1, -, -, -, hs2, -⟩ := hC rfl
  exact ⟨hA, ⟨e, he, hs⟩, e1, e2, h12, hs1, hs2⟩

/-- Claim C6: a record contributes events only if its pile id is selected or
the selection is empty, so excluding a pile id from a non-empty selection
removes all of that pile's entries from the event list in both modes. -/
theorem c6_pile_filter_excludes (preds : List Prediction) (sel : Finset Int)
    (year : Int) (showComp : Bool) (rfd : Option (List MatchRecord)) :
    (∀ e ∈ eventsMemo preds sel year showComp rfd,
      sel = ∅ ∨ eventPileId e ∈ sel)
    ∧ ∀ x : Int, sel ≠ ∅ → x ∉ sel →
        ∀ e ∈ eventsMemo preds sel year showComp rfd, eventPileId e ≠ x := by
  have key : ∀ e ∈ eventsMemo preds sel year showComp rfd,
      sel = ∅ ∨ eventPileId e ∈ sel := by
    intro e he
    have h := (mem_of_mem_eventsMemo preds sel year showComp rfd e he).1
    exact (pileIncluded_eq_true_iff sel (eventPileId e)).mp
      (mem_buildAllEvents preds sel showComp rfd e h).1
  refine ⟨key, ?_⟩
  intro x hsel hx e he hx2
  rcases key e he with h | h
  · exact hsel h
  · rw [hx2] at h
    exact hx h

/-- Claim C6 witness: with selection containing only pile 1, the concrete
event built from pile 1's record does not carry the excluded pile id 2, and
its pile id is a member of the selection. -/
theorem c6_pile_filter_excludes_witness :
    eventPileId
        { id := some "pile_1", title := "Штабель #1 - B\nСклад A | 3 дней",
          start := ⟨2024, 5, 1⟩, backgroundColor := "#16a34a",
          borderColor := "#16a34a",
          extendedProps := .fromPrediction
            ⟨1, none, ⟨2024, 5, 1⟩, 3, some "low", none, some "A", some "B"⟩ }
      ≠ 2
    ∧ (({1} : Finset Int) = ∅ ∨ eventPileId
        { id := some "pile_1", title := "Штабель #1 - B\nСклад A | 3 дней",
          start := ⟨2024, 5, 1⟩, backgroundColor := "#16a34a",
          borderColor := "#16a34a",
          extendedProps := .fromPrediction
            ⟨1, none, ⟨2024, 5, 1⟩, 3, some "low", none, some "A", some "B"⟩ }
        ∈ ({1} : Finset Int)) := by
  obtain ⟨hmem, hexc⟩ := c6_pile_filter_excludes
    [⟨1, none, ⟨2024, 5, 1⟩, 3, some "low", none, some "A", some "B"⟩]
    {1} 2024 false none
  refine ⟨hexc 2 (by decide) (by decide) _ (by decide), hmem _ (by decide)⟩

/-- Claim C7: every entry of the returned event list has an anchor date whose
calendar year equals the selected year, in both modes. -/
theorem c7_year_postfilter (preds : List Prediction) (sel : Finset Int)
    (year : Int) (showComp : Bool) (rfd : Option (List MatchRecord)) :
    ∀ e ∈ eventsMemo preds sel year showComp rfd, e.start.year = year :=
  fun e he => (mem_of_mem_eventsMemo preds sel year showComp rfd e he).2

/-- Claim C7 witness: the concrete event surviving the year filter for 2024 is
anchored in 2024. -/
theorem c7_year_postfilter_witness :
    ({ id := some "pile_1", title := "Штабель #1 - B\nСклад A | 3 дней",
       start := ⟨2024, 5, 1⟩, backgroundColor := "#16a34a",
       borderColor := "#16a34a",
       extendedProps := .fromPrediction
         ⟨1, none, ⟨2024, 5, 1⟩, 3, some "low", none, some "A", some "B"⟩ } :
      CalendarEvent).start.year = 2024 :=
  c7_year_postfilter
    [⟨1, none, ⟨2024, 5, 1⟩, 3, some "low", none, some "A", some "B"⟩]
    ∅ 2024 false none _ (by decide)

/-- Claim C9: when the evaluation fetch fails, or its response lacks matched
predictions, and when the prediction trigger fails, the failure is surfaced as
a message and the page's data state (predictions, real-fires data, evaluation
metrics, stored date range) is exactly what it was before the call. -/
theorem c9_failure_preserves_state (s : CalendarState) (r : EvalFetchResult)
    (sd : DashboardState) (pr : PredictFetchResult) :
    (∀ msg, r = EvalFetchResult.err msg →
      (loadRealFiresData s true r).1.predictions = s.predictions
      ∧ (loadRealFiresData s true r).1.realFiresData = s.realFiresData
      ∧ (loadRealFiresData s true r).1.evaluationMetrics = s.evaluationMetrics
      ∧ (loadRealFiresData s true r).2.isSome = true)
    ∧ (∀ resp, r = EvalFetchResult.ok resp → resp.matched_predictions = none →
      (loadRealFiresData s true r).1.predictions = s.predictions
      ∧ (loadRealFiresData s true r).1.realFiresData = s.realFiresData
      ∧ (loadRealFiresData s true r).1.evaluationMetrics = s.evaluationMetrics
      ∧ (loadRealFiresData s true r).2.isSome = true)
    ∧ (∀ msg, pr = PredictFetchResult.err msg →
      (handlePredict sd true pr).dateRange = sd.dateRange
      ∧ (handlePredict sd true pr).error.isSome = true) := by
  refine ⟨?_, ?_, ?_⟩
  · intro msg hmsg
    subst hmsg
    simp [loadRealFiresData]
  · intro resp hresp hmp
    subst hresp
    simp [loadRealFiresData, hmp]
  · intro msg hmsg
    subst hmsg
    simp [handlePredict]

/-- Claim C9 witness: a concrete failed evaluation call and a concrete failed
prediction call leave the concrete prior state unchanged and surface a
message. -/
theorem c9_failure_preserves_state_witness :
    (loadRealFiresData ⟨[], none, none, false, false⟩ true
        (EvalFetchResult.err (some "network down"))).1.realFiresData = none
    ∧ (loadRealFiresData ⟨[], none, none, false, false⟩ true
        (EvalFetchResult.err (some "network down"))).1.evaluationMetrics = none
    ∧ (loadRealFiresData ⟨[], none, none, false, false⟩ true
        (EvalFetchResult.err (some "network down"))).2.isSome = true
    ∧ (handlePredict ⟨false, none, none, none⟩ true
        (PredictFetchResult.err none)).dateRange = none
    ∧ (handlePredict ⟨false, none, none, none⟩ true
        (PredictFetchResult.err none)).error.isSome = true := by
  obtain ⟨h1, -, h3⟩ := c9_failure_preserves_state ⟨[], none, none, false, false⟩
    (EvalFetchResult.err (some "network down")) ⟨false, none, none, none⟩
    (PredictFetchResult.err none)
  obtain ⟨-, hb, hc, hd⟩ := h1 (some "network down") rfl
  obtain ⟨he, hf⟩ := h3 none rfl
  exact ⟨hb, hc, hd, he, hf⟩

end Combustion
